import Mathlib

/-
Shallow embedding of the tick-streaming backend:
  src/backend/mt5_bridge_server.py     (v5.1: classes VC, MT5C, WM)
  src/backend/mt5_bridge_server_v6.py  (v6.1: classes VolumeCalculator,
                                        MT5Connector, WebSocketManager)

Modelling conventions:
  * Python floats are modelled as rationals (ℚ); the operations the claims
    depend on (sums, differences, max, sign comparisons) are the ones whose
    algebraic behaviour float arithmetic shares with exact arithmetic.
  * `random.random()` is modelled by an explicit draw stream `g : ℕ → ℚ`
    together with a cursor `k : ℕ`; each call to `random.random()` in the
    source reads `g k` and advances the cursor, exactly in source order
    (draws guarded by an `if` are only consumed when the branch runs).
    The predicate `unit01 g` states that every draw lies in [0,1), which is
    the contract of `random.random()`.
  * Python dicts keyed by symbol are modelled as functions
    `String → Option ℚ` (`none` = key absent); `dict.pop(k, None)` and
    `d[k] = v` become `popD` and `setD`.
  * The external MetaTrader5 library is not part of the repository; where the outcome of an
    operation depends on it (MT5 initialization success, the raw
    tick arrays returned by copy_ticks_range / copy_ticks_from, whether a
    websocket send raises), that outcome enters the model as an explicit
    parameter, and the control flow of the code on that outcome is embedded
    faithfully.
-/

/-- Python `str.upper()` for the ASCII symbol identifiers used by the server:
uppercases every character of the string. -/
def pyUpper (s : String) : String := ⟨s.data.map Char.toUpper⟩

/-- The aggressor side of a synthesized tick: the Python strings `buy` and `sell`. -/
inductive Side
  | buy
  | sell
deriving DecidableEq, Repr

/-- All draws of the stream lie in [0,1): the contract of
`random.random()`. -/
def unit01 (g : ℕ → ℚ) : Prop := ∀ i, 0 ≤ g i ∧ g i < 1

/-- Python `d[k] = v` on a symbol-keyed dict. -/
def setD (f : String → Option ℚ) (key : String) (v : ℚ) : String → Option ℚ :=
  fun s => if s = key then some v else f s

/-- Python `d.pop(k, None)` on a symbol-keyed dict (the remaining dict). -/
def popD (f : String → Option ℚ) (key : String) : String → Option ℚ :=
  fun s => if s = key then none else f s

/-- Result of `calc`: the 4-tuple `(mid, vol, pc, side)` returned by
`VC.calc` / `VolumeCalculator.calc`. -/
structure CalcRes where
  mid : ℚ
  vol : ℚ
  pc : ℚ
  side : Side
deriving DecidableEq, Repr

/-- One record of the raw array returned by `mt5.copy_ticks_range` /
`mt5.copy_ticks_from`: either its bid/ask/time fields parse (with the
`time_msc` field optionally present), or every parse attempt raises
(`bad`). -/
inductive RawTick
  | bad
  | good (bid ask : ℚ) (ts : ℤ) (tms : Option ℤ)
deriving DecidableEq, Repr

/-- A raw record that `get_history` converts: it parses and has positive
bid and ask. -/
def isValidRaw : RawTick → Bool
  | .bad => false
  | .good bid ask _ _ => decide (0 < bid ∧ 0 < ask)

namespace V5

/-- One entry of `SYM_CFG` in mt5_bridge_server.py: keys mult, bv, dig. -/
structure Cfg where
  mult : ℚ
  bv : ℚ
  dig : ℕ
deriving DecidableEq, Repr

/-- The `SYM_CFG` dict of mt5_bridge_server.py. -/
def SYM_CFG : List (String × Cfg) :=
  [("EURUSD", ⟨100000, 5, 5⟩),
   ("GBPUSD", ⟨100000, 5, 5⟩),
   ("USDJPY", ⟨1000, 5, 3⟩),
   ("XAUUSD", ⟨50, 10, 2⟩),
   ("USTEC", ⟨2, 10, 2⟩),
   ("US100", ⟨2, 10, 2⟩),
   ("NAS100", ⟨2, 10, 2⟩),
   ("BTCUSD", ⟨1, 5, 2⟩)]

/-- Function gcfg of mt5_bridge_server.py: `SYM_CFG.get` on the uppercased
symbol, defaulting to mult=1000, bv=5, dig=5. -/
def gcfg (s : String) : Cfg :=
  (SYM_CFG.lookup (pyUpper s)).getD ⟨1000, 5, 5⟩

/-- State of class `VC`: the dicts `self.lb` (last bid) and `self.lm`
(last mid), both keyed by symbol. -/
structure VC where
  lb : String → Option ℚ
  lm : String → Option ℚ

/-- Constructor of class `VC`: both dicts empty. -/
def VC.empty : VC := ⟨fun _ => none, fun _ => none⟩

/-- Method `VC.calc(sym, bid, ask)`.  Draws: `g k` is the jitter factor draw
(`0.7 + random.random()*0.6`); when `bc = 0` the coin flip reads `g (k+1)`.
Returns the result, the updated state, and the advanced cursor. -/
def VC.calc (st : VC) (g : ℕ → ℚ) (k : ℕ) (sym : String) (bid ask : ℚ) :
    CalcRes × VC × ℕ :=
  let c := gcfg sym
  let mid := (bid + ask) / 2
  let lb := (st.lb sym).getD bid
  let lm := (st.lm sym).getD mid
  let pc := mid - lm
  let bc := bid - lb
  let vol0 := |pc| * c.mult + c.bv
  let vol1 := vol0 * (0.7 + g k * 0.6)
  let vol := max vol1 c.bv
  let sideK : Side × ℕ :=
    if bc > 0 then (.buy, k + 1)
    else if bc < 0 then (.sell, k + 1)
    else (if g (k + 1) > 0.5 then (.buy, k + 2) else (.sell, k + 2))
  (⟨mid, vol, pc, sideK.1⟩, ⟨setD st.lb sym bid, setD st.lm sym mid⟩, sideK.2)

/-- Method `VC.reset(sym=None)`: drops the state of one symbol, or of all symbols
when `sym` is `None` (or, by Python truthiness, the empty string). -/
def VC.reset (st : VC) (sym : Option String) : VC :=
  match sym with
  | some s => if s = "" then ⟨fun _ => none, fun _ => none⟩
              else ⟨popD st.lb s, popD st.lm s⟩
  | none => ⟨fun _ => none, fun _ => none⟩

/-- An output record of `MT5C.get_history` (source "mt5_history"); the
`round(...)` display rounding of the Python dict literal is not modelled,
the underlying values are kept exact. -/
structure HistRec where
  symbol : String
  price : ℚ
  bid : ℚ
  ask : ℚ
  volume_synthetic : ℚ
  side : Side
  timestamp : ℤ
  price_change : ℚ
  spread : ℚ
deriving DecidableEq, Repr

/-- The conversion loop of `MT5C.get_history` (`for i in range(n): ...`):
unparsable records and records with `bid <= 0 or ask <= 0` are skipped by
`continue` (without touching the synthesizer state); every other record is
run through `vc.calc` and appended. -/
def MT5C.histLoop (g : ℕ → ℚ) (sym : String) :
    List RawTick → VC → ℕ → List HistRec
  | [], _, _ => []
  | .bad :: rest, st, k => MT5C.histLoop g sym rest st k
  | .good bid ask ts tms :: rest, st, k =>
      if 0 < bid ∧ 0 < ask then
        let r := VC.calc st g k sym bid ask
        ⟨sym, r.1.mid, bid, ask, r.1.vol, r.1.side, tms.getD (ts * 1000),
          r.1.pc, ask - bid⟩ :: MT5C.histLoop g sym rest r.2.1 r.2.2
      else MT5C.histLoop g sym rest st k

/-- Method `MT5C.get_history(sym, hours)`.  `connected` is `self.connected and
MT5_AVAILABLE`, `symbolOk` the result of `mt5.symbol_select`; `rawRange`
and `rawFrom` are the arrays returned by `copy_ticks_range` and the
`copy_ticks_from` fallback (a `None` return is the empty list).  The batch
is replayed through a fresh local `VC()` starting at cursor `k`. -/
def MT5C.get_history (connected symbolOk : Bool) (rawRange rawFrom : List RawTick)
    (g : ℕ → ℚ) (k : ℕ) (sym : String) : List HistRec :=
  if ¬ connected then []
  else if ¬ symbolOk then []
  else
    let raw := if rawRange.isEmpty then rawFrom else rawRange
    if raw.isEmpty then []
    else MT5C.histLoop g sym raw VC.empty k

/-- The volume-burst line of `WM.simulate`:
`if random.random() > 0.95: vol *= 3+random.random()*5`. -/
def WM.simBurst (g : ℕ → ℚ) (k : ℕ) (vol : ℚ) : ℚ :=
  if g k > 0.95 then vol * (3 + g (k + 1) * 5) else vol

/-- Method `WM.conn(ws)`: `self.conns.append(ws)` (the websocket `accept` is
transport I/O; the registry effect is the append). -/
def WM.conn {α : Type} (conns : List α) (ws : α) : List α := conns ++ [ws]

/-- Method `WM.disc(ws)`: `if ws in self.conns: self.conns.remove(ws)`. -/
def WM.disc {α : Type} [DecidableEq α] (conns : List α) (ws : α) : List α :=
  if ws ∈ conns then conns.erase ws else conns

/-- The send loop of `WM.bcast`: each subscriber is sent to in registry
order; `sendOk c = false` means `c.send_json` raised.  Returns the list of
subscribers actually delivered to and the `bad` list, both in order. -/
def WM.bcastLoop {α : Type} (sendOk : α → Bool) : List α → List α × List α
  | [] => ([], [])
  | c :: rest =>
      let r := WM.bcastLoop sendOk rest
      if sendOk c then (c :: r.1, r.2) else (r.1, c :: r.2)

/-- Method `WM.bcast(msg)`: send to every subscriber, collect the failures, then
`for c in bad: self.disc(c)`.  Returns (delivered, remaining registry). -/
def WM.bcast {α : Type} [DecidableEq α] (conns : List α) (sendOk : α → Bool) :
    List α × List α :=
  let r := WM.bcastLoop sendOk conns
  (r.1, r.2.foldl (fun acc c => WM.disc acc c) conns)

/-- State of class `WM` relevant to mode/symbol management: `self.mode`,
`self.sym`, whether `self.mt5` holds a connector, and `self.vc`. -/
structure WM where
  mode : String
  sym : String
  hasMt5 : Bool
  vc : VC

/-- Method `WM.start_mt5(sym)`: store the uppercased symbol, build a fresh `MT5C`,
and branch on `self.mt5.init()` (its outcome, which depends on the external
MetaTrader5 terminal, is the parameter `initOk`): on success mode="mt5" and
`True` is returned, otherwise mode="simulation" and `False`.  No exception
escapes: `MT5C.init` catches every exception and returns `False`. -/
def WM.start_mt5 (st : WM) (sym : String) (initOk : Bool) : WM × Bool :=
  let st1 : WM := { st with sym := pyUpper sym, hasMt5 := true }
  if initOk then ({ st1 with mode := "mt5" }, true)
  else ({ st1 with mode := "simulation" }, false)

/-- Method `WM.stop_mt5()`: shut down and drop the connector, cancel the task,
mode="simulation". -/
def WM.stop_mt5 (st : WM) : WM :=
  { st with hasMt5 := false, mode := "simulation" }

/-- The `/switch_symbol/{symbol}` route of mt5_bridge_server.py: set
`mgr.sym`, reset the synthesizer state of the new symbol, and if the mode
was "mt5" restart the live connector (outcome `initOk`); otherwise only the
symbol pointer changes and `ok=True`.  Returns the new state and the `ok`
field of the response. -/
def switch_sym (st : WM) (symbol : String) (initOk : Bool) : WM × Bool :=
  let st1 : WM := { st with sym := pyUpper symbol,
                            vc := st.vc.reset (some (pyUpper symbol)) }
  if st1.mode = "mt5" then
    let st2 := st1.stop_mt5
    st2.start_mt5 st1.sym initOk
  else (st1, true)

end V5

namespace V6

/-- One entry of `SYM_CFG` in mt5_bridge_server_v6.py: keys mult, bv, dig,
base. -/
structure Cfg where
  mult : ℚ
  bv : ℚ
  dig : ℕ
  base : ℚ
deriving DecidableEq, Repr

/-- The `SYM_CFG` dict of mt5_bridge_server_v6.py. -/
def SYM_CFG : List (String × Cfg) :=
  [("EURUSD", ⟨100000, 5, 5, 1.0850⟩),
   ("GBPUSD", ⟨100000, 5, 5, 1.2650⟩),
   ("USDJPY", ⟨1000, 5, 3, 149.50⟩),
   ("XAUUSD", ⟨50, 10, 2, 2350⟩),
   ("USTEC", ⟨2, 10, 2, 18500⟩),
   ("US100", ⟨2, 10, 2, 18500⟩),
   ("NAS100", ⟨2, 10, 2, 18500⟩),
   ("BTCUSD", ⟨1, 5, 2, 67000⟩)]

/-- Function gcfg of mt5_bridge_server_v6.py: `SYM_CFG.get` on the uppercased
symbol, defaulting to mult=1000, bv=5, dig=5, base=1. -/
def gcfg (s : String) : Cfg :=
  (SYM_CFG.lookup (pyUpper s)).getD ⟨1000, 5, 5, 1⟩

/-- State of class `VolumeCalculator`: the dicts `self.last_bid`,
`self.last_mid`, and the key set of `self._initialized` (`inited s = true`
iff `s` is a key of that dict; the dict only ever stores `True`). -/
structure VolumeCalculator where
  last_bid : String → Option ℚ
  last_mid : String → Option ℚ
  inited : String → Bool

/-- Constructor of class `VolumeCalculator`: all three dicts empty. -/
def VolumeCalculator.empty : VolumeCalculator :=
  ⟨fun _ => none, fun _ => none, fun _ => false⟩

/-- Method `VolumeCalculator.calc(symbol, bid, ask)`.  Draw order in the source:
first branch (symbol not yet seen) consumes the volume draw `g k` then the
coin-flip draw `g (k+1)`; otherwise the jitter draw `g k`, the burst-check
draw `g (k+1)`, the burst-factor draw `g (k+2)` only when the check fired,
and a coin-flip draw only when `bid_change = 0`.  On the warmed-up branch
the source indexes `self.last_mid[symbol]` / `self.last_bid[symbol]`
directly; the `getD 0` default in the model is unreachable because `calc` and
`reset` keep `inited` true exactly when both dicts hold the key. -/
def VolumeCalculator.calc (st : VolumeCalculator) (g : ℕ → ℚ) (k : ℕ)
    (symbol : String) (bid ask : ℚ) : CalcRes × VolumeCalculator × ℕ :=
  let config := gcfg symbol
  let mid := (bid + ask) / 2
  if st.inited symbol = false then
    let st' : VolumeCalculator :=
      ⟨setD st.last_bid symbol bid, setD st.last_mid symbol mid,
       fun s => if s = symbol then true else st.inited s⟩
    let vol := config.bv * (0.8 + g k * 0.4)
    let side : Side := if g (k + 1) > 0.5 then .buy else .sell
    (⟨mid, vol, 0, side⟩, st', k + 2)
  else
    let price_change := mid - (st.last_mid symbol).getD 0
    let bid_change := bid - (st.last_bid symbol).getD 0
    let vol0 := |price_change| * config.mult + config.bv
    let vol1 := vol0 * (0.7 + g k * 0.6)
    let vol2 := max vol1 config.bv
    let volK : ℚ × ℕ :=
      if g (k + 1) > 0.97 then (vol2 * (3 + g (k + 2) * 5), k + 3)
      else (vol2, k + 2)
    let sideK : Side × ℕ :=
      if bid_change > 0 then (.buy, volK.2)
      else if bid_change < 0 then (.sell, volK.2)
      else (if g volK.2 > 0.5 then (.buy, volK.2 + 1) else (.sell, volK.2 + 1))
    (⟨mid, volK.1, price_change, sideK.1⟩,
     ⟨setD st.last_bid symbol bid, setD st.last_mid symbol mid, st.inited⟩,
     sideK.2)

/-- Method `VolumeCalculator.reset(symbol=None)`: pops one symbol from all three
dicts, or clears them all when `symbol` is `None` (or, by Python
truthiness, the empty string). -/
def VolumeCalculator.reset (st : VolumeCalculator) (sym : Option String) :
    VolumeCalculator :=
  match sym with
  | some s =>
      if s = "" then VolumeCalculator.empty
      else ⟨popD st.last_bid s, popD st.last_mid s,
            fun x => if x = s then false else st.inited x⟩
  | none => VolumeCalculator.empty

/-- An output record of `MT5Connector.get_history` (source "mt5_history");
exact values are kept in place of the `round(...)` display rounding. -/
structure HistRec where
  symbol : String
  price : ℚ
  bid : ℚ
  ask : ℚ
  volume_synthetic : ℚ
  side : Side
  timestamp : ℤ
deriving DecidableEq, Repr

/-- The conversion loop of `MT5Connector.get_history` (`for t in raw`):
a record whose parse raises is skipped by the `except: continue`; a parsed
record is converted only `if bid > 0 and ask > 0`, otherwise nothing
happens to it (the synthesizer state is untouched either way). -/
def MT5Connector.histLoop (g : ℕ → ℚ) (sym : String) :
    List RawTick → VolumeCalculator → ℕ → List HistRec
  | [], _, _ => []
  | .bad :: rest, st, k => MT5Connector.histLoop g sym rest st k
  | .good bid ask ts tms :: rest, st, k =>
      if 0 < bid ∧ 0 < ask then
        let r := VolumeCalculator.calc st g k sym bid ask
        ⟨sym, r.1.mid, bid, ask, r.1.vol, r.1.side, tms.getD (ts * 1000)⟩ ::
          MT5Connector.histLoop g sym rest r.2.1 r.2.2
      else MT5Connector.histLoop g sym rest st k

/-- Method `MT5Connector.get_history(symbol, hours)`: guard on connection and
`symbol_select`, fetch `copy_ticks_range` with the `copy_ticks_from`
fallback, then replay the batch in arrival order through a fresh local
`VolumeCalculator()`. -/
def MT5Connector.get_history (connected symbolOk : Bool)
    (rawRange rawFrom : List RawTick) (g : ℕ → ℚ) (k : ℕ) (sym : String) :
    List HistRec :=
  if ¬ connected then []
  else if ¬ symbolOk then []
  else
    let raw := if rawRange.isEmpty then rawFrom else rawRange
    if raw.isEmpty then []
    else MT5Connector.histLoop g sym raw VolumeCalculator.empty k

/-- Method `WebSocketManager.connect(ws)`: `self.connections.append(ws)`. -/
def WebSocketManager.connect {α : Type} (conns : List α) (ws : α) : List α :=
  conns ++ [ws]

/-- Method `WebSocketManager.disconnect(ws)`:
`if ws in self.connections: self.connections.remove(ws)`. -/
def WebSocketManager.disconnect {α : Type} [DecidableEq α]
    (conns : List α) (ws : α) : List α :=
  if ws ∈ conns then conns.erase ws else conns

/-- The send loop of `WebSocketManager.broadcast`. -/
def WebSocketManager.bcastLoop {α : Type} (sendOk : α → Bool) :
    List α → List α × List α
  | [] => ([], [])
  | c :: rest =>
      let r := WebSocketManager.bcastLoop sendOk rest
      if sendOk c then (c :: r.1, r.2) else (r.1, c :: r.2)

/-- Method `WebSocketManager.broadcast(msg)`: send to every connection, collect
failures in `bad`, then `for conn in bad: self.disconnect(conn)`. -/
def WebSocketManager.broadcast {α : Type} [DecidableEq α] (conns : List α)
    (sendOk : α → Bool) : List α × List α :=
  let r := WebSocketManager.bcastLoop sendOk conns
  (r.1, r.2.foldl (fun acc c => WebSocketManager.disconnect acc c) conns)

/-- State of class `WebSocketManager` relevant to mode/symbol management. -/
structure WebSocketManager where
  mode : String
  symbol : String
  hasMt5 : Bool
  vc : VolumeCalculator

/-- Method `WebSocketManager.start_mt5(symbol)`: uppercase the symbol, build a
fresh `MT5Connector`, branch on `self.mt5.init()` (outcome `initOk`; `init`
catches every exception and returns `False`, so nothing is raised to the
caller).  Success: mode="mt5", return `True`; failure: mode="simulation",
return `False`. -/
def WebSocketManager.start_mt5 (st : WebSocketManager) (sym : String)
    (initOk : Bool) : WebSocketManager × Bool :=
  let st1 : WebSocketManager := { st with symbol := pyUpper sym, hasMt5 := true }
  if initOk then ({ st1 with mode := "mt5" }, true)
  else ({ st1 with mode := "simulation" }, false)

/-- Method `WebSocketManager.stop_mt5()`: shut down and drop the connector, cancel
the task, mode="simulation". -/
def WebSocketManager.stop_mt5 (st : WebSocketManager) : WebSocketManager :=
  { st with hasMt5 := false, mode := "simulation" }

/-- The `/switch_symbol/{symbol}` route of mt5_bridge_server_v6.py: set
`manager.symbol`, reset the synthesizer state of the new symbol, and if the
mode was "mt5" restart the live connector (outcome `initOk`); otherwise
only the symbol pointer changes and `success=True`.  Returns the new state
and the `success` field of the response. -/
def switch_symbol (st : WebSocketManager) (sym : String) (initOk : Bool) :
    WebSocketManager × Bool :=
  let st1 : WebSocketManager :=
    { st with symbol := pyUpper sym, vc := st.vc.reset (some (pyUpper sym)) }
  if st1.mode = "mt5" then
    let st2 := st1.stop_mt5
    st2.start_mt5 st1.symbol initOk
  else (st1, true)

end V6

/-
Concrete draw streams and warmed-up synthesizer states used by the
witnesses and counterexamples below.
-/

/-- Draw stream that always returns 0 (a legal `random.random()` run). -/
def gZero : ℕ → ℚ := fun _ => 0

/-- Draw stream that always returns 0.95 (a legal `random.random()` run). -/
def gHigh : ℕ → ℚ := fun _ => 19 / 20

/-- Draw stream whose second draw (index 1) is 0.98 and all others 0. -/
def gBurst : ℕ → ℚ := fun i => if i = 1 then 49 / 50 else 0

/-- V5 synthesizer state warmed up for EURUSD at last bid 1, last mid 1. -/
def stWarm5 : V5.VC :=
  ⟨fun s => if s = "EURUSD" then some 1 else none,
   fun s => if s = "EURUSD" then some 1 else none⟩

/-- V6 synthesizer state warmed up for EURUSD at last bid 1, last mid 1. -/
def stWarm6 : V6.VolumeCalculator :=
  ⟨fun s => if s = "EURUSD" then some 1 else none,
   fun s => if s = "EURUSD" then some 1 else none,
   fun s => s == "EURUSD"⟩

/-- Every draw of `gZero` is in [0,1). -/
theorem unit01_gZero : unit01 gZero := by
  intro i; constructor <;> norm_num [gZero]

/-- Every draw of `gHigh` is in [0,1). -/
theorem unit01_gHigh : unit01 gHigh := by
  intro i; constructor <;> norm_num [gHigh]

/-- Every draw of `gBurst` is in [0,1). -/
theorem unit01_gBurst : unit01 gBurst := by
  intro i; dsimp [gBurst]; split <;> norm_num

/-- Profile of EURUSD in the v5 table. -/
theorem gcfg5_EURUSD : V5.gcfg "EURUSD" = ⟨100000, 5, 5⟩ := rfl

/-- Profile of EURUSD in the v6 table. -/
theorem gcfg6_EURUSD : V6.gcfg "EURUSD" = ⟨100000, 5, 5, 1.0850⟩ := rfl

/-- Every profile the v5 lookup can return has a positive base volume. -/
theorem gcfg5_bv_pos (s : String) : 0 < (V5.gcfg s).bv := by
  unfold V5.gcfg V5.SYM_CFG
  simp only [List.lookup]
  repeat' split <;> norm_num

/-- Every profile the v6 lookup can return has a positive base volume. -/
theorem gcfg6_bv_pos (s : String) : 0 < (V6.gcfg s).bv := by
  unfold V6.gcfg V6.SYM_CFG
  simp only [List.lookup]
  repeat' split <;> norm_num

/-- C9: the profile lookup `gcfg` is total (a function defined on every
string, in both server versions), case-insensitive (two symbols with the
same uppercasing resolve to the same profile), and every symbol that is not
a key of `SYM_CFG` resolves to the default profile with multiplier 1000,
base volume 5 and 5 digits. -/
theorem C9_gcfg_total_case_insensitive :
    (∀ s₁ s₂ : String, pyUpper s₁ = pyUpper s₂ →
      V5.gcfg s₁ = V5.gcfg s₂ ∧ V6.gcfg s₁ = V6.gcfg s₂) ∧
    (∀ s : String, V5.SYM_CFG.lookup (pyUpper s) = none →
      V5.gcfg s = ⟨1000, 5, 5⟩) ∧
    (∀ s : String, V6.SYM_CFG.lookup (pyUpper s) = none →
      V6.gcfg s = ⟨1000, 5, 5, 1⟩) := by
  refine ⟨fun s₁ s₂ h => ⟨by simp [V5.gcfg, h], by simp [V6.gcfg, h]⟩,
    fun s h => by simp [V5.gcfg, h], fun s h => by simp [V6.gcfg, h]⟩

/-- Witness for C9 at concrete inputs: a mixed-case symbol resolves like its
uppercase form, and an unknown symbol gets the default profile. -/
theorem C9_gcfg_witness :
    pyUpper "EurUsd" = pyUpper "EURUSD" ∧
    V5.gcfg "EurUsd" = V5.gcfg "EURUSD" ∧
    V6.SYM_CFG.lookup (pyUpper "zzz") = none ∧
    V6.gcfg "zzz" = ⟨1000, 5, 5, 1⟩ :=
  ⟨by decide, (C9_gcfg_total_case_insensitive.1 "EurUsd" "EURUSD" (by decide)).1,
   by decide, C9_gcfg_total_case_insensitive.2.2 "zzz" (by decide)⟩

/-- C10: `calc` is total over all quote inputs — for any bid/ask, including
zero, negative and crossed quotes, both versions return a result whose mid
is `(bid+ask)/2` and whose side is `buy` or `sell`; no positivity check is
performed inside `calc` (the guards `bid > 0 and ask > 0` live in its
callers `listen` and `get_history`). -/
theorem C10_calc_total_shape :
    ∀ (st5 : V5.VC) (st6 : V6.VolumeCalculator) (g : ℕ → ℚ) (k : ℕ)
      (sym : String) (bid ask : ℚ),
      (V5.VC.calc st5 g k sym bid ask).1.mid = (bid + ask) / 2 ∧
      ((V5.VC.calc st5 g k sym bid ask).1.side = Side.buy ∨
        (V5.VC.calc st5 g k sym bid ask).1.side = Side.sell) ∧
      (V6.VolumeCalculator.calc st6 g k sym bid ask).1.mid = (bid + ask) / 2 ∧
      ((V6.VolumeCalculator.calc st6 g k sym bid ask).1.side = Side.buy ∨
        (V6.VolumeCalculator.calc st6 g k sym bid ask).1.side = Side.sell) := by
  intro st5 st6 g k sym bid ask
  refine ⟨by simp [V5.VC.calc], ?_, ?_, ?_⟩
  · simp only [V5.VC.calc]
    split_ifs <;> simp
  · simp only [V6.VolumeCalculator.calc]
    split_ifs <;> simp
  · simp only [V6.VolumeCalculator.calc]
    split_ifs <;> simp

/-- C1: `start_mt5` and the switch-symbol route always leave the mode equal
to "mt5" (Live) or "simulation" (Simulated) — for the switch route under
the invariant that the mode was one of the two before — and whenever the
connector init fails (`b = false`), the mode ends as "simulation" and the
reported success flag is `False`; both operations are total functions of
the model, mirroring that `init` swallows every exception. -/
theorem C1_mode_always_defined :
    (∀ (st : V5.WM) (sym : String) (b : Bool),
      ((V5.WM.start_mt5 st sym b).1.mode = "mt5" ∨
        (V5.WM.start_mt5 st sym b).1.mode = "simulation") ∧
      (b = false → (V5.WM.start_mt5 st sym b).1.mode = "simulation" ∧
        (V5.WM.start_mt5 st sym b).2 = false)) ∧
    (∀ (st : V5.WM) (sym : String) (b : Bool),
      (st.mode = "mt5" ∨ st.mode = "simulation") →
      (((V5.switch_sym st sym b).1.mode = "mt5" ∨
        (V5.switch_sym st sym b).1.mode = "simulation") ∧
      (st.mode = "mt5" → b = false →
        (V5.switch_sym st sym b).1.mode = "simulation" ∧
        (V5.switch_sym st sym b).2 = false))) ∧
    (∀ (st : V6.WebSocketManager) (sym : String) (b : Bool),
      ((V6.WebSocketManager.start_mt5 st sym b).1.mode = "mt5" ∨
        (V6.WebSocketManager.start_mt5 st sym b).1.mode = "simulation") ∧
      (b = false → (V6.WebSocketManager.start_mt5 st sym b).1.mode = "simulation" ∧
        (V6.WebSocketManager.start_mt5 st sym b).2 = false)) ∧
    (∀ (st : V6.WebSocketManager) (sym : String) (b : Bool),
      (st.mode = "mt5" ∨ st.mode = "simulation") →
      (((V6.switch_symbol st sym b).1.mode = "mt5" ∨
        (V6.switch_symbol st sym b).1.mode = "simulation") ∧
      (st.mode = "mt5" → b = false →
        (V6.switch_symbol st sym b).1.mode = "simulation" ∧
        (V6.switch_symbol st sym b).2 = false))) := by
  refine ⟨fun st sym b => ?_, fun st sym b hm => ?_, fun st sym b => ?_,
    fun st sym b hm => ?_⟩
  · cases b <;> simp [V5.WM.start_mt5]
  · cases b <;>
      rcases hm with h | h <;>
      simp [V5.switch_sym, V5.WM.stop_mt5, V5.WM.start_mt5, h]
  · cases b <;> simp [V6.WebSocketManager.start_mt5]
  · cases b <;>
      rcases hm with h | h <;>
      simp [V6.switch_symbol, V6.WebSocketManager.stop_mt5,
        V6.WebSocketManager.start_mt5, h]

/-- Witness for C1 at a concrete input: switching symbol while Live when the
new live connection attempt fails degrades the mode to "simulation" with
success `False`. -/
theorem C1_mode_witness :
    ((V6.switch_symbol ⟨"mt5", "EURUSD", true, V6.VolumeCalculator.empty⟩
        "XAUUSD" false).1.mode = "simulation" ∧
      (V6.switch_symbol ⟨"mt5", "EURUSD", true, V6.VolumeCalculator.empty⟩
        "XAUUSD" false).2 = false) :=
  (C1_mode_always_defined.2.2.2 ⟨"mt5", "EURUSD", true, V6.VolumeCalculator.empty⟩
      "XAUUSD" false (Or.inl rfl)).2 rfl rfl

/-- C2: after the first observation of a symbol (its last-bid state is
stored), for any positive quotes, `calc` returns side buy when
`bid - last_bid > 0`, sell when `bid - last_bid < 0`, and only when
`bid - last_bid = 0` is the side decided by the fair coin flip
`random.random() > 0.5` — in both server versions. -/
theorem C2_side_from_bid_change :
    (∀ (st : V5.VC) (g : ℕ → ℚ) (k : ℕ) (sym : String) (bid ask lbv : ℚ),
      0 < bid → 0 < ask → st.lb sym = some lbv →
      ((bid - lbv > 0 → (V5.VC.calc st g k sym bid ask).1.side = Side.buy) ∧
       (bid - lbv < 0 → (V5.VC.calc st g k sym bid ask).1.side = Side.sell) ∧
       (bid - lbv = 0 → (V5.VC.calc st g k sym bid ask).1.side =
          (if g (k + 1) > 0.5 then Side.buy else Side.sell)))) ∧
    (∀ (st : V6.VolumeCalculator) (g : ℕ → ℚ) (k : ℕ) (sym : String)
        (bid ask lbv : ℚ),
      0 < bid → 0 < ask → st.inited sym = true → st.last_bid sym = some lbv →
      ((bid - lbv > 0 →
          (V6.VolumeCalculator.calc st g k sym bid ask).1.side = Side.buy) ∧
       (bid - lbv < 0 →
          (V6.VolumeCalculator.calc st g k sym bid ask).1.side = Side.sell) ∧
       (bid - lbv = 0 →
          (V6.VolumeCalculator.calc st g k sym bid ask).1.side =
            (if g (if g (k + 1) > 0.97 then k + 3 else k + 2) > 0.5
             then Side.buy else Side.sell)))) := by
  constructor
  · intro st g k sym bid ask lbv hb ha hlb
    have e : (st.lb sym).getD bid = lbv := by rw [hlb]; rfl
    refine ⟨fun h => ?_, fun h => ?_, fun h => ?_⟩ <;>
      simp only [V5.VC.calc, e] <;>
      split_ifs <;>
      first
        | rfl
        | (exfalso; linarith)
  · intro st g k sym bid ask lbv hb ha hinit hlb
    have hcc : ¬ (st.inited sym = false) := by simp [hinit]
    have e : (st.last_bid sym).getD 0 = lbv := by rw [hlb]; rfl
    refine ⟨fun h => ?_, fun h => ?_, fun h => ?_⟩ <;>
      simp only [V6.VolumeCalculator.calc, e, if_neg hcc] <;>
      split_ifs <;>
      first
        | rfl
        | (exfalso; linarith)

/-- Witness for C2 at a concrete input: a warmed-up EURUSD state with a
rising bid yields side buy. -/
theorem C2_side_witness :
    (0 : ℚ) < 2 ∧ (0 : ℚ) < 2 ∧ stWarm5.lb "EURUSD" = some 1 ∧
    (2 : ℚ) - 1 > 0 ∧
    (V5.VC.calc stWarm5 gZero 0 "EURUSD" 2 2).1.side = Side.buy :=
  ⟨by norm_num, by norm_num, rfl, by norm_num,
    (C2_side_from_bid_change.1 stWarm5 gZero 0 "EURUSD" 2 2 1
      (by norm_num) (by norm_num) rfl).1 (by norm_num)⟩

/-- Counterexample to C3: on the very first observation of a symbol, the v6
`VolumeCalculator.calc` returns `bv * (0.8 + r*0.4)` with no floor, so the
all-zero draw stream gives volume 4, strictly below the EURUSD base volume
5 — refuting the claim for "every call including the very first". -/
theorem C3_first_call_volume_below_base :
    unit01 gZero ∧
    V6.VolumeCalculator.empty.inited "EURUSD" = false ∧
    (V6.VolumeCalculator.calc V6.VolumeCalculator.empty gZero 0 "EURUSD" 1 1).1.vol
      = 4 ∧
    (4 : ℚ) < (V6.gcfg "EURUSD").bv := by
  refine ⟨unit01_gZero, rfl, ?_, by rw [gcfg6_EURUSD]; norm_num⟩
  simp only [V6.VolumeCalculator.calc, V6.VolumeCalculator.empty, gcfg6_EURUSD,
    gZero]
  norm_num

/-- C3 as amended: the volume floor holds on every v5 `calc` call (the v5
first call also passes through `max(vol, bv)`), and on every v6 call after
the warm-up call; only the v6 first observation can fall below the base
volume. -/
theorem C3_volume_floor :
    (∀ (st : V5.VC) (g : ℕ → ℚ) (k : ℕ) (sym : String) (bid ask : ℚ),
      (V5.gcfg sym).bv ≤ (V5.VC.calc st g k sym bid ask).1.vol) ∧
    (∀ (st : V6.VolumeCalculator) (g : ℕ → ℚ) (k : ℕ) (sym : String)
        (bid ask : ℚ),
      unit01 g → st.inited sym = true →
      (V6.gcfg sym).bv ≤ (V6.VolumeCalculator.calc st g k sym bid ask).1.vol) := by
  constructor
  · intro st g k sym bid ask
    simp only [V5.VC.calc]
    exact le_max_right _ _
  · intro st g k sym bid ask hg hinit
    have hcc : ¬ (st.inited sym = false) := by simp [hinit]
    simp only [V6.VolumeCalculator.calc, if_neg hcc]
    split_ifs with hb
    · have h1 : (V6.gcfg sym).bv ≤
          max ((|((bid + ask) / 2 - (st.last_mid sym).getD 0)| * (V6.gcfg sym).mult
              + (V6.gcfg sym).bv) * (0.7 + g k * 0.6)) (V6.gcfg sym).bv :=
        le_max_right _ _
      have h2 : (0 : ℚ) ≤ g (k + 2) := (hg (k + 2)).1
      have hm : (0 : ℚ) ≤
          max ((|((bid + ask) / 2 - (st.last_mid sym).getD 0)| * (V6.gcfg sym).mult
              + (V6.gcfg sym).bv) * (0.7 + g k * 0.6)) (V6.gcfg sym).bv :=
        le_trans (gcfg6_bv_pos sym).le h1
      nlinarith
    · exact le_max_right _ _

/-- Witness for C3 as amended at a concrete input: a warmed-up v6 EURUSD
state yields a volume at least the base volume. -/
theorem C3_volume_floor_witness :
    unit01 gZero ∧ stWarm6.inited "EURUSD" = true ∧
    (V6.gcfg "EURUSD").bv ≤
      (V6.VolumeCalculator.calc stWarm6 gZero 0 "EURUSD" 1 1).1.vol :=
  ⟨unit01_gZero, rfl,
    C3_volume_floor.2 stWarm6 gZero 0 "EURUSD" 1 1 unit01_gZero rfl⟩

/-- Counterexample to C4: on a first observation, v5 `VC.calc` returns
`max(bv*(0.7 + r*0.6), bv)` — with the 0.95 draw this is 6.35, which cannot
be written as `bv * (0.8 + u*0.4)` for any draw `u` in [0,1), so the
claimed first-call formula `base_volume * uniform(0.8, 1.2)` is wrong for
the v5 server. -/
theorem C4_first_call_volume_formula_differs :
    unit01 gHigh ∧
    V5.VC.empty.lb "EURUSD" = none ∧
    (V5.VC.calc V5.VC.empty gHigh 0 "EURUSD" 1 1).1.vol = 127 / 20 ∧
    ¬ ∃ r : ℚ, 0 ≤ r ∧ r < 1 ∧
      (127 / 20 : ℚ) = (V5.gcfg "EURUSD").bv * (0.8 + r * 0.4) := by
  refine ⟨unit01_gHigh, rfl, ?_, ?_⟩
  · simp only [V5.VC.calc, V5.VC.empty, gcfg5_EURUSD, gHigh]
    norm_num [max_def]
  · rintro ⟨r, h0, h1, he⟩
    rw [gcfg5_EURUSD] at he
    norm_num at he
    linarith

/-- C4 as amended: a `calc` call with no stored state seeds the state with
`(bid, (bid+ask)/2)` and returns price change 0 and a coin-flip side in
both versions; the first-call volume is `bv * (0.8 + r*0.4)` in v6 but
`max(bv*(0.7 + r*0.6), bv)` in v5; and `reset(symbol)` restores the
no-stored-state condition in both versions. -/
theorem C4_first_observation :
    (∀ (st : V5.VC) (g : ℕ → ℚ) (k : ℕ) (sym : String) (bid ask : ℚ),
      st.lb sym = none → st.lm sym = none →
      ((V5.VC.calc st g k sym bid ask).1.mid = (bid + ask) / 2 ∧
       (V5.VC.calc st g k sym bid ask).1.pc = 0 ∧
       (V5.VC.calc st g k sym bid ask).1.vol =
         max ((V5.gcfg sym).bv * (0.7 + g k * 0.6)) (V5.gcfg sym).bv ∧
       (V5.VC.calc st g k sym bid ask).1.side =
         (if g (k + 1) > 0.5 then Side.buy else Side.sell) ∧
       (V5.VC.calc st g k sym bid ask).2.1.lb sym = some bid ∧
       (V5.VC.calc st g k sym bid ask).2.1.lm sym = some ((bid + ask) / 2))) ∧
    (∀ (st : V6.VolumeCalculator) (g : ℕ → ℚ) (k : ℕ) (sym : String)
        (bid ask : ℚ),
      st.inited sym = false →
      ((V6.VolumeCalculator.calc st g k sym bid ask).1.mid = (bid + ask) / 2 ∧
       (V6.VolumeCalculator.calc st g k sym bid ask).1.pc = 0 ∧
       (V6.VolumeCalculator.calc st g k sym bid ask).1.vol =
         (V6.gcfg sym).bv * (0.8 + g k * 0.4) ∧
       (V6.VolumeCalculator.calc st g k sym bid ask).1.side =
         (if g (k + 1) > 0.5 then Side.buy else Side.sell) ∧
       (V6.VolumeCalculator.calc st g k sym bid ask).2.1.last_bid sym = some bid ∧
       (V6.VolumeCalculator.calc st g k sym bid ask).2.1.last_mid sym =
         some ((bid + ask) / 2) ∧
       (V6.VolumeCalculator.calc st g k sym bid ask).2.1.inited sym = true ∧
       (V6.VolumeCalculator.calc st g k sym bid ask).2.2 = k + 2)) ∧
    (∀ (st : V5.VC) (sym : String),
      (V5.VC.reset st (some sym)).lb sym = none ∧
      (V5.VC.reset st (some sym)).lm sym = none) ∧
    (∀ (st : V6.VolumeCalculator) (sym : String),
      (V6.VolumeCalculator.reset st (some sym)).inited sym = false ∧
      (V6.VolumeCalculator.reset st (some sym)).last_bid sym = none ∧
      (V6.VolumeCalculator.reset st (some sym)).last_mid sym = none) := by
  refine ⟨fun st g k sym bid ask hlb hlm => ?_,
    fun st g k sym bid ask hinit => ?_, fun st sym => ?_, fun st sym => ?_⟩
  · simp only [V5.VC.calc, hlb, hlm, Option.getD_none]
    norm_num [setD]
    split_ifs <;> rfl
  · simp only [V6.VolumeCalculator.calc, hinit]
    norm_num [setD]
  · simp only [V5.VC.reset]
    split_ifs <;> simp [popD]
  · simp only [V6.VolumeCalculator.reset]
    split_ifs <;> simp [popD, V6.VolumeCalculator.empty]

/-- Witness for C4 as amended at a concrete input: the first EURUSD call on
a fresh v6 synthesizer returns price change 0. -/
theorem C4_first_observation_witness :
    V6.VolumeCalculator.empty.inited "EURUSD" = false ∧
    (V6.VolumeCalculator.calc V6.VolumeCalculator.empty gZero 0 "EURUSD" 1 1).1.pc
      = 0 :=
  ⟨rfl,
    (C4_first_observation.2.1 V6.VolumeCalculator.empty gZero 0 "EURUSD" 1 1
        rfl).2.1⟩

/-- Erasing an element distinct from the head commutes with consing the
head, iterated over a whole list of erasures. -/
theorem foldl_erase_cons {α : Type} [DecidableEq α] (bad : List α) (l : List α)
    (c : α) (h : ∀ b ∈ bad, b ≠ c) :
    bad.foldl (fun acc x => acc.erase x) (c :: l) =
      c :: bad.foldl (fun acc x => acc.erase x) l := by
  induction bad generalizing l with
  | nil => rfl
  | cons b bs ih =>
    simp only [List.foldl_cons]
    rw [List.erase_cons_tail]
    · exact ih _ (fun x hx => h x (List.mem_cons_of_mem _ hx))
    · intro hh
      exact h b (List.mem_cons_self _ _) (eq_of_beq hh).symm

/-- Erasing, one by one, every element of `l.filter p` from `l` leaves
exactly `l.filter (not p)`: each failing element is removed exactly as
often as it occurs. -/
theorem foldl_erase_filter {α : Type} [DecidableEq α] (p : α → Bool)
    (l : List α) :
    (l.filter p).foldl (fun acc x => acc.erase x) l =
      l.filter (fun a => !p a) := by
  induction l with
  | nil => rfl
  | cons c l ih =>
    by_cases hp : p c
    · simp only [List.filter_cons, hp, if_pos, Bool.not_true, List.foldl_cons,
        List.erase_cons_head]
      simpa [hp] using ih
    · have hbad : (c :: l).filter p = l.filter p := by
        simp [List.filter_cons, hp]
      rw [hbad, foldl_erase_cons _ _ _ (fun b hb => by
        rintro rfl; exact hp (List.of_mem_filter hb)), ih]
      simp [List.filter_cons, hp]

/-- The v5 send loop partitions the registry into delivered and failing
subscribers, in order. -/
theorem bcastLoop5_eq {α : Type} (sendOk : α → Bool) (l : List α) :
    V5.WM.bcastLoop sendOk l =
      (l.filter sendOk, l.filter (fun c => !sendOk c)) := by
  induction l with
  | nil => rfl
  | cons c rest ih =>
    simp only [V5.WM.bcastLoop, ih, List.filter_cons]
    cases h : sendOk c <;> simp [h]

/-- The v6 send loop partitions the registry into delivered and failing
subscribers, in order. -/
theorem bcastLoop6_eq {α : Type} (sendOk : α → Bool) (l : List α) :
    V6.WebSocketManager.bcastLoop sendOk l =
      (l.filter sendOk, l.filter (fun c => !sendOk c)) := by
  induction l with
  | nil => rfl
  | cons c rest ih =>
    simp only [V6.WebSocketManager.bcastLoop, ih, List.filter_cons]
    cases h : sendOk c <;> simp [h]

/-- Guarded removal (`if ws in conns: conns.remove(ws)`) equals plain
erase, which is a no-op on a missing element. -/
theorem disc5_eq_erase {α : Type} [DecidableEq α] (l : List α) (c : α) :
    V5.WM.disc l c = l.erase c := by
  unfold V5.WM.disc
  split_ifs with h
  · rfl
  · exact (List.erase_of_not_mem h).symm

/-- Guarded removal of v6 equals plain erase. -/
theorem disconnect6_eq_erase {α : Type} [DecidableEq α] (l : List α) (c : α) :
    V6.WebSocketManager.disconnect l c = l.erase c := by
  unfold V6.WebSocketManager.disconnect
  split_ifs with h
  · rfl
  · exact (List.erase_of_not_mem h).symm

/-- C5: broadcasting over a registry of N subscribers of which exactly K
fail delivery delivers the tick to precisely the non-failing subscribers
(in registry order), removes exactly the K failing ones, and leaves
N−K registered — in both server versions; `bcast`/`broadcast` is a total
function of the model (every send failure is caught). -/
theorem C5_broadcast_self_healing :
    ∀ {α : Type} [DecidableEq α] (conns : List α) (sendOk : α → Bool),
      ((V5.WM.bcast conns sendOk).1 = conns.filter sendOk ∧
       (V5.WM.bcast conns sendOk).2 = conns.filter sendOk ∧
       (V5.WM.bcast conns sendOk).2.length +
         (conns.filter (fun c => !sendOk c)).length = conns.length) ∧
      ((V6.WebSocketManager.broadcast conns sendOk).1 = conns.filter sendOk ∧
       (V6.WebSocketManager.broadcast conns sendOk).2 = conns.filter sendOk ∧
       (V6.WebSocketManager.broadcast conns sendOk).2.length +
         (conns.filter (fun c => !sendOk c)).length = conns.length) := by
  intro α _inst conns sendOk
  have h5 : (V5.WM.bcast conns sendOk).2 = conns.filter sendOk := by
    simp only [V5.WM.bcast, bcastLoop5_eq]
    have he : (fun (acc : List α) c => V5.WM.disc acc c) =
        (fun (acc : List α) c => acc.erase c) :=
      funext fun l => funext fun c => disc5_eq_erase l c
    rw [he, foldl_erase_filter]
    simp
  have h6 : (V6.WebSocketManager.broadcast conns sendOk).2 =
      conns.filter sendOk := by
    simp only [V6.WebSocketManager.broadcast, bcastLoop6_eq]
    have he : (fun (acc : List α) c => V6.WebSocketManager.disconnect acc c) =
        (fun (acc : List α) c => acc.erase c) :=
      funext fun l => funext fun c => disconnect6_eq_erase l c
    rw [he, foldl_erase_filter]
    simp
  refine ⟨⟨?_, h5, ?_⟩, ⟨?_, h6, ?_⟩⟩
  · simp [V5.WM.bcast, bcastLoop5_eq]
  · rw [h5]
    exact (List.length_eq_length_filter_add sendOk).symm
  · simp [V6.WebSocketManager.broadcast, bcastLoop6_eq]
  · rw [h6]
    exact (List.length_eq_length_filter_add sendOk).symm

/-- Witness for C5 at a concrete input: of four subscribers the two odd
ones fail; both are removed, both even ones stay registered. -/
theorem C5_broadcast_witness :
    (V6.WebSocketManager.broadcast ([1, 2, 3, 4] : List ℕ)
        (fun c => c % 2 == 0)).2 = [2, 4] :=
  ((C5_broadcast_self_healing ([1, 2, 3, 4] : List ℕ)
      (fun c => c % 2 == 0)).2.2.1).trans (by decide)

/-- Skipped records leave the v5 conversion loop unchanged: replaying a raw
batch equals replaying only its valid records. -/
theorem histLoop5_filter (g : ℕ → ℚ) (sym : String) :
    ∀ (raw : List RawTick) (st : V5.VC) (k : ℕ),
      V5.MT5C.histLoop g sym raw st k =
        V5.MT5C.histLoop g sym (raw.filter isValidRaw) st k := by
  intro raw
  induction raw with
  | nil => intro st k; rfl
  | cons t rest ih =>
    intro st k
    cases t with
    | bad => simp only [V5.MT5C.histLoop, List.filter_cons, isValidRaw,
        Bool.false_eq_true, if_false, ih]
    | good bid ask ts tms =>
      by_cases h : 0 < bid ∧ 0 < ask <;>
        simp [V5.MT5C.histLoop, List.filter_cons, isValidRaw, h, ih]

/-- One output record per valid raw record in the v5 conversion loop. -/
theorem histLoop5_length (g : ℕ → ℚ) (sym : String) :
    ∀ (raw : List RawTick) (st : V5.VC) (k : ℕ),
      (V5.MT5C.histLoop g sym raw st k).length =
        (raw.filter isValidRaw).length := by
  intro raw
  induction raw with
  | nil => intro st k; rfl
  | cons t rest ih =>
    intro st k
    cases t with
    | bad => simp only [V5.MT5C.histLoop, List.filter_cons, isValidRaw,
        Bool.false_eq_true, if_false, ih]
    | good bid ask ts tms =>
      by_cases h : 0 < bid ∧ 0 < ask <;>
        simp [V5.MT5C.histLoop, List.filter_cons, isValidRaw, h, ih]

/-- Skipped records leave the v6 conversion loop unchanged. -/
theorem histLoop6_filter (g : ℕ → ℚ) (sym : String) :
    ∀ (raw : List RawTick) (st : V6.VolumeCalculator) (k : ℕ),
      V6.MT5Connector.histLoop g sym raw st k =
        V6.MT5Connector.histLoop g sym (raw.filter isValidRaw) st k := by
  intro raw
  induction raw with
  | nil => intro st k; rfl
  | cons t rest ih =>
    intro st k
    cases t with
    | bad => simp only [V6.MT5Connector.histLoop, List.filter_cons, isValidRaw,
        Bool.false_eq_true, if_false, ih]
    | good bid ask ts tms =>
      by_cases h : 0 < bid ∧ 0 < ask <;>
        simp [V6.MT5Connector.histLoop, List.filter_cons, isValidRaw, h, ih]

/-- One output record per valid raw record in the v6 conversion loop. -/
theorem histLoop6_length (g : ℕ → ℚ) (sym : String) :
    ∀ (raw : List RawTick) (st : V6.VolumeCalculator) (k : ℕ),
      (V6.MT5Connector.histLoop g sym raw st k).length =
        (raw.filter isValidRaw).length := by
  intro raw
  induction raw with
  | nil => intro st k; rfl
  | cons t rest ih =>
    intro st k
    cases t with
    | bad => simp only [V6.MT5Connector.histLoop, List.filter_cons, isValidRaw,
        Bool.false_eq_true, if_false, ih]
    | good bid ask ts tms =>
      by_cases h : 0 < bid ∧ 0 < ask <;>
        simp [V6.MT5Connector.histLoop, List.filter_cons, isValidRaw, h, ih]

/-- C6: the history conversion replays the raw batch in arrival order
through a fresh, isolated synthesizer instance (`VC()` in v5,
`VolumeCalculator()` in v6, starting from the empty state); every record
with non-positive bid or ask or with unparsable fields is skipped while the
remaining records are still processed (the skipped record leaves the
replay state untouched); the conversion is a total function that returns
`[]` on every guard failure; and a concrete batch whose middle record has
bid = 0 yields exactly its two valid records. -/
theorem C6_history_conversion :
    (∀ (g : ℕ → ℚ) (sym : String) (raw : List RawTick) (st : V5.VC) (k : ℕ),
      V5.MT5C.histLoop g sym raw st k =
        V5.MT5C.histLoop g sym (raw.filter isValidRaw) st k ∧
      (V5.MT5C.histLoop g sym raw st k).length =
        (raw.filter isValidRaw).length) ∧
    (∀ (g : ℕ → ℚ) (sym : String) (raw : List RawTick)
        (st : V6.VolumeCalculator) (k : ℕ),
      V6.MT5Connector.histLoop g sym raw st k =
        V6.MT5Connector.histLoop g sym (raw.filter isValidRaw) st k ∧
      (V6.MT5Connector.histLoop g sym raw st k).length =
        (raw.filter isValidRaw).length) ∧
    (∀ (conn sOk : Bool) (r1 r2 : List RawTick) (g : ℕ → ℚ) (k : ℕ)
        (sym : String),
      V5.MT5C.get_history conn sOk r1 r2 g k sym =
        (if conn = true ∧ sOk = true ∧
            ((if r1.isEmpty then r2 else r1).isEmpty = false)
         then V5.MT5C.histLoop g sym (if r1.isEmpty then r2 else r1)
            V5.VC.empty k
         else []) ∧
      V6.MT5Connector.get_history conn sOk r1 r2 g k sym =
        (if conn = true ∧ sOk = true ∧
            ((if r1.isEmpty then r2 else r1).isEmpty = false)
         then V6.MT5Connector.histLoop g sym (if r1.isEmpty then r2 else r1)
            V6.VolumeCalculator.empty k
         else [])) ∧
    (V6.MT5Connector.get_history true true
        [RawTick.good 1 2 0 none, RawTick.good 0 2 1 none,
         RawTick.good 3 4 2 none] [] gZero 0 "EURUSD").length = 2 := by
  refine ⟨fun g sym raw st k => ⟨histLoop5_filter g sym raw st k,
      histLoop5_length g sym raw st k⟩,
    fun g sym raw st k => ⟨histLoop6_filter g sym raw st k,
      histLoop6_length g sym raw st k⟩,
    fun conn sOk r1 r2 g k sym => ⟨?_, ?_⟩, ?_⟩
  · unfold V5.MT5C.get_history
    cases conn <;> cases sOk <;>
      by_cases hr : (if r1.isEmpty then r2 else r1).isEmpty <;>
        simp_all [List.isEmpty_iff]
  · unfold V6.MT5Connector.get_history
    cases conn <;> cases sOk <;>
      by_cases hr : (if r1.isEmpty then r2 else r1).isEmpty <;>
        simp_all [List.isEmpty_iff]
  · rw [show V6.MT5Connector.get_history true true
        [RawTick.good 1 2 0 none, RawTick.good 0 2 1 none,
         RawTick.good 3 4 2 none] [] gZero 0 "EURUSD" =
        V6.MT5Connector.histLoop gZero "EURUSD"
          [RawTick.good 1 2 0 none, RawTick.good 0 2 1 none,
           RawTick.good 3 4 2 none] V6.VolumeCalculator.empty 0 from rfl]
    rw [histLoop6_length]
    simp only [List.filter, isValidRaw]
    norm_num

/-- Counterexample to C7: the claim attributes the ~3% in-`calc` burst to
both versions, but the v5 `VC.calc` contains no burst branch at all — on a
warmed-up state, even with the post-jitter draw at 0.98 (inside the claimed
3% event), the returned volume is the plain value 5 and is not that value
multiplied by any factor in [3,8). -/
theorem C7_v5_calc_never_bursts :
    unit01 gBurst ∧ gBurst 1 > 0.97 ∧
    stWarm5.lb "EURUSD" = some 1 ∧
    (V5.VC.calc stWarm5 gBurst 0 "EURUSD" 1 1).1.vol = 5 ∧
    ¬ ∃ f : ℚ, 3 ≤ f ∧ f < 8 ∧
      (V5.VC.calc stWarm5 gBurst 0 "EURUSD" 1 1).1.vol = 5 * f := by
  have hv : (V5.VC.calc stWarm5 gBurst 0 "EURUSD" 1 1).1.vol = 5 := by
    simp only [V5.VC.calc, stWarm5, gcfg5_EURUSD, gBurst]
    norm_num [max_def]
  refine ⟨unit01_gBurst, by norm_num [gBurst], rfl, hv, ?_⟩
  rintro ⟨f, h3, h8, he⟩
  rw [hv] at he
  linarith

/-- C7 as amended: in v6, when the burst-check draw exceeds 0.97 (an event
of probability 3% for a uniform draw) the post-warm-up volume is multiplied
by `3 + r*5`, which lies in [3,8) for draws in [0,1), and otherwise no
burst factor is applied; the v5 `calc` never applies a burst (its volume
is always the plain `max(jittered, bv)` value), and the ~5% burst of v5
lives in the `simulate` loop (`WM.simBurst`), again with factor in
[3,8). -/
theorem C7_burst_behaviour :
    (∀ (st : V6.VolumeCalculator) (g : ℕ → ℚ) (k : ℕ) (sym : String)
        (bid ask : ℚ),
      unit01 g → st.inited sym = true →
      ((g (k + 1) > 0.97 →
        (V6.VolumeCalculator.calc st g k sym bid ask).1.vol =
          max ((|(bid + ask) / 2 - (st.last_mid sym).getD 0| * (V6.gcfg sym).mult
              + (V6.gcfg sym).bv) * (0.7 + g k * 0.6)) (V6.gcfg sym).bv
            * (3 + g (k + 2) * 5) ∧
        3 ≤ 3 + g (k + 2) * 5 ∧ 3 + g (k + 2) * 5 < 8) ∧
       (¬ g (k + 1) > 0.97 →
        (V6.VolumeCalculator.calc st g k sym bid ask).1.vol =
          max ((|(bid + ask) / 2 - (st.last_mid sym).getD 0| * (V6.gcfg sym).mult
              + (V6.gcfg sym).bv) * (0.7 + g k * 0.6)) (V6.gcfg sym).bv))) ∧
    (∀ (st : V5.VC) (g : ℕ → ℚ) (k : ℕ) (sym : String) (bid ask : ℚ),
      (V5.VC.calc st g k sym bid ask).1.vol =
        max ((|(bid + ask) / 2 - (st.lm sym).getD ((bid + ask) / 2)|
            * (V5.gcfg sym).mult + (V5.gcfg sym).bv) * (0.7 + g k * 0.6))
          (V5.gcfg sym).bv) ∧
    (∀ (g : ℕ → ℚ) (k : ℕ) (vol : ℚ), unit01 g →
      (g k > 0.95 → V5.WM.simBurst g k vol = vol * (3 + g (k + 1) * 5) ∧
        3 ≤ 3 + g (k + 1) * 5 ∧ 3 + g (k + 1) * 5 < 8) ∧
      (¬ g k > 0.95 → V5.WM.simBurst g k vol = vol)) := by
  refine ⟨fun st g k sym bid ask hg hinit => ?_, fun st g k sym bid ask => ?_,
    fun g k vol hg => ?_⟩
  · have hcc : ¬ (st.inited sym = false) := by simp [hinit]
    have h0 := (hg (k + 2)).1
    have h1 := (hg (k + 2)).2
    refine ⟨fun hb => ?_, fun hb => ?_⟩
    · simp only [V6.VolumeCalculator.calc, if_neg hcc]
      rw [if_pos hb]
      exact ⟨rfl, by linarith, by linarith⟩
    · simp only [V6.VolumeCalculator.calc, if_neg hcc]
      rw [if_neg hb]
  · simp only [V5.VC.calc]
  · have h0 := (hg (k + 1)).1
    have h1 := (hg (k + 1)).2
    refine ⟨fun hb => ?_, fun hb => ?_⟩ <;>
      unfold V5.WM.simBurst
    · rw [if_pos hb]
      exact ⟨rfl, by linarith, by linarith⟩
    · rw [if_neg hb]

/-- Witness for C7 as amended at a concrete input: a warmed-up v6 state
with burst-check draw 0.98 and burst-factor draw 0 returns volume
5 × 3 = 15. -/
theorem C7_burst_witness :
    unit01 gBurst ∧ stWarm6.inited "EURUSD" = true ∧ gBurst 1 > 0.97 ∧
    (V6.VolumeCalculator.calc stWarm6 gBurst 0 "EURUSD" 1 1).1.vol = 15 :=
  ⟨unit01_gBurst, rfl, by norm_num [gBurst], by
    have h := (C7_burst_behaviour.1 stWarm6 gBurst 0 "EURUSD" 1 1 unit01_gBurst
        rfl).1 (by norm_num [gBurst])
    rw [h.1]
    norm_num [stWarm6, gcfg6_EURUSD, gBurst, max_def]⟩

/-- Counterexample to C8: subscribing a handle that is already registered
does not leave the registry unchanged — `connect` appends unconditionally,
producing a duplicate entry. -/
theorem C8_subscribe_not_idempotent :
    (0 : ℕ) ∈ ([0] : List ℕ) ∧
    V6.WebSocketManager.connect ([0] : List ℕ) 0 = [0, 0] ∧
    V6.WebSocketManager.connect ([0] : List ℕ) 0 ≠ [0] := by
  refine ⟨by decide, rfl, by decide⟩

/-- C8 as amended: `subscribe` always appends (so a repeated subscribe
grows the registry by one, creating a duplicate rather than being
idempotent), while `unsubscribe` of a handle that is not registered is a
no-op that does not fail — in both server versions. -/
theorem C8_subscribe_append_unsubscribe_noop :
    (∀ {α : Type} (conns : List α) (ws : α),
      V5.WM.conn conns ws = conns ++ [ws] ∧
      (V5.WM.conn conns ws).length = conns.length + 1) ∧
    (∀ {α : Type} [DecidableEq α] (conns : List α) (ws : α),
      ws ∉ conns → V5.WM.disc conns ws = conns) ∧
    (∀ {α : Type} (conns : List α) (ws : α),
      V6.WebSocketManager.connect conns ws = conns ++ [ws] ∧
      (V6.WebSocketManager.connect conns ws).length = conns.length + 1) ∧
    (∀ {α : Type} [DecidableEq α] (conns : List α) (ws : α),
      ws ∉ conns → V6.WebSocketManager.disconnect conns ws = conns) := by
  refine ⟨fun conns ws => ⟨rfl, by simp [V5.WM.conn]⟩,
    fun conns ws h => by simp [V5.WM.disc, h],
    fun conns ws => ⟨rfl, by simp [V6.WebSocketManager.connect]⟩,
    fun conns ws h => by simp [V6.WebSocketManager.disconnect, h]⟩

/-- Witness for C8 as amended at a concrete input: removing an unregistered
handle leaves the registry unchanged. -/
theorem C8_unsubscribe_witness :
    (3 : ℕ) ∉ ([1, 2] : List ℕ) ∧
    V6.WebSocketManager.disconnect ([1, 2] : List ℕ) 3 = [1, 2] :=
  ⟨by decide,
    C8_subscribe_append_unsubscribe_noop.2.2.2 ([1, 2] : List ℕ) 3 (by decide)⟩
